import Mathlib

/-
Verification of the WPC Alpha-Numeric driver core (src/mame/drivers/wpc_an.cpp).

The driver state (class wpc_an_state) is embedded as a structure; each handler
function of the driver becomes a Lean function on that structure.  Bytes and
words are Nat with explicit truncation where the C++ type forces it.  The WPC
ASIC device (machine/wpc.cpp, not part of the source tree) is visible here only
through the accessors the driver calls (memprotect_active, get_memprotect_mask,
get_alphanumeric, reset_alphanumeric) and the register-port callbacks; those
are modelled as state fields / events, from the spec where marked.
-/

namespace WpcAn

/-- Driver-visible machine state: the fields of wpc_an_state together with the
WPC device state the driver reads through accessors, and the two CPU interrupt
lines the driver drives via set_input_line. -/
structure WpcState where
  /-- uint8_t m_ram[0x3000] : the protected RAM buffer, as a map offset → byte. -/
  ram : Nat → Nat
  /-- the currently selected entry of m_cpubank (set via set_entry). -/
  bankEntry : Nat
  /-- uint8_t m_bankmask. -/
  bankmask : Nat
  /-- uint16_t m_vblank_count. -/
  vblankCount : Nat
  /-- uint32_t m_irq_count. -/
  irqCount : Nat
  /-- the M6809 IRQ input line (true = asserted). -/
  irqLine : Bool
  /-- the M6809 FIRQ input line (true = asserted). -/
  firqLine : Bool
  /-- WPC device: memprotect_active() accessor result. -/
  memprotectActive : Bool
  /-- WPC device: get_memprotect_mask() accessor result. -/
  memprotectMask : Nat
  /-- WPC device: get_alphanumeric(x) raw segment store, a map cell → 16-bit pattern. -/
  alphanumeric : Nat → Nat
  /-- output_finder<32> m_digits : the display buffer outputs. -/
  digits : Nat → Nat

/-- uint8_t ram_r(offs_t offset) : return m_ram[offset]. -/
def ram_r (st : WpcState) (offset : Nat) : Nat :=
  st.ram offset

/-- void ram_w(offs_t offset, uint8_t data) : store unless the protection
comparator blocks the write; a blocked write only logs. -/
def ram_w (st : WpcState) (offset data : Nat) : WpcState :=
  if (!st.memprotectActive) || (decide ((offset &&& st.memprotectMask) ≠ st.memprotectMask)) then
    { st with ram := fun o => if o = offset then data else st.ram o }
  else
    st

/-- void wpc_rombank_w(uint8_t data) : m_cpubank->set_entry(data & m_bankmask). -/
def wpc_rombank_w (st : WpcState) (data : Nat) : WpcState :=
  { st with bankEntry := data &&& st.bankmask }

/-- A read through the bank window: configure_entries(0, 32, &ROM[0x10000], 0x4000)
makes entry n start at ROM offset 0x10000 + n * 0x4000, so a read of `offset`
inside the 0x4000-byte window yields this ROM byte. -/
def cpubank_read (rom : Nat → Nat) (st : WpcState) (offset : Nat) : Nat :=
  rom (0x10000 + st.bankEntry * 0x4000 + offset)

/-- WRITE_LINE_MEMBER wpc_irq_w : set_input_line(M6809_IRQ_LINE, CLEAR_LINE). -/
def wpc_irq_w (st : WpcState) : WpcState :=
  { st with irqLine := false }

/-- WRITE_LINE_MEMBER wpc_firq_w : set_input_line(M6809_FIRQ_LINE, CLEAR_LINE). -/
def wpc_firq_w (st : WpcState) : WpcState :=
  { st with firqLine := false }

/-- WRITE_LINE_MEMBER wpcsnd_reply_w : if(state) assert M6809_FIRQ_LINE. -/
def wpcsnd_reply_w (st : WpcState) (state : Bool) : WpcState :=
  if state then { st with firqLine := true } else st

/-- Modelled from the spec: the Register File's raw alphanumeric store (held
inside the WPC device, machine/wpc.cpp, not in the source tree) is written by
CPU register writes between frames; only the store cell changes. -/
def wpc_raw_alpha_w (st : WpcState) (i v : Nat) : WpcState :=
  { st with alphanumeric := fun j => if j = i then v else st.alphanumeric j }

/-- MAME bitswap<16>(val, 15, 7, 12, 10, 8, 14, 13, 9, 11, 6, 5, 4, 3, 2, 1, 0):
the first listed source bit becomes bit 15 of the result, the next bit 14, etc. -/
def bitswapSources : List Nat := [15, 7, 12, 10, 8, 14, 13, 9, 11, 6, 5, 4, 3, 2, 1, 0]

/-- The fixed 16-bit permutation applied to each raw alphanumeric pattern. -/
def bitswap16 (v : Nat) : Nat :=
  (List.range 16).foldl
    (fun acc j => acc ||| (((v >>> (bitswapSources.getD j 0)) &&& 1) <<< (15 - j)))
    0

/-- Pointwise update of the digits output map. -/
def updateDigit (d : Nat → Nat) (i v : Nat) : Nat → Nat :=
  fun j => if j = i then v else d j

/-- The first n iterations of the TIMER_VBLANK update loop
for(x=0;x<n;x++) with digits[x] = bitswap16(alpha(x)) and
digits[x+16] = bitswap16(alpha(20+x)). -/
def vblankLoopAux (alpha d : Nat → Nat) (n : Nat) : Nat → Nat :=
  (List.range n).foldl
    (fun acc x =>
      updateDigit (updateDigit acc x (bitswap16 (alpha x))) (x + 16) (bitswap16 (alpha (20 + x))))
    d

/-- device_timer, case TIMER_VBLANK: run the 16-iteration segment-update loop,
then m_wpc->reset_alphanumeric() (modelled from the spec: it clears the raw
alphanumeric store), then m_vblank_count++ (uint16_t, wraps at 2^16). -/
def device_timer_vblank (st : WpcState) : WpcState :=
  { st with
    digits := vblankLoopAux st.alphanumeric st.digits 16
    alphanumeric := fun _ => 0
    vblankCount := (st.vblankCount + 1) % 65536 }

/-- device_timer, case TIMER_IRQ: set_input_line(M6809_IRQ_LINE, ASSERT_LINE). -/
def device_timer_irq (st : WpcState) : WpcState :=
  { st with irqLine := true }

/-- void machine_reset() : set_entry(0); m_vblank_count = 0; m_irq_count = 0. -/
def machine_reset (st : WpcState) : WpcState :=
  { st with bankEntry := 0, vblankCount := 0, irqCount := 0 }

/-- m_bankmask = ((memregion bytes - 0x10000) >> 14) - 1, computed in uint32_t
arithmetic then truncated into the uint8_t field; `bytes` is the size of the
maincpu region (a uint32 value). -/
def compute_bankmask (bytes : Nat) : Nat :=
  (((((bytes + 0x100000000 - 0x10000) % 0x100000000) >>> 14)
      + 0x100000000 - 1) % 0x100000000) % 256

/-- void init_wpc_an() : configure the 32 bank entries, set_entry(0), arm the
two timers (external scheduler, period only), compute m_bankmask, and
memset(m_ram, 0, 0x3000).  Timer arming and the fixed-region copy have no
representation inside WpcState; the copy is init_fixed below. -/
def init_wpc_an (bytes : Nat) (st : WpcState) : WpcState :=
  { st with
    bankEntry := 0
    bankmask := compute_bankmask bytes
    ram := fun _ => 0 }

/-- memcpy(fixed, &ROM[codeoff], 0x8000) with codeoff = bytes - 0x8000 : the
fixed region byte at offset o is the ROM byte at (bytes - 0x8000) + o. -/
def init_fixed (bytes : Nat) (rom : Nat → Nat) : Nat → Nat :=
  fun o => rom (bytes - 0x8000 + o)

/-- The discrete events that can act on the driver state: the two timer fires,
the WPC device register-port callbacks into the driver (the IRQ/FIRQ
acknowledge ports invoke the clear callbacks regardless of the byte written —
spec 4.5), CPU accesses routed to the driver handlers, raw alphanumeric store
writes, and the sound-board reply line. -/
inductive Ev where
  | irqTimerFire
  | vblankTimerFire
  | irqClearWrite (v : Nat)
  | firqClearWrite (v : Nat)
  | ramWrite (o d : Nat)
  | rombankWrite (d : Nat)
  | rawAlphaWrite (i v : Nat)
  | sndReply (s : Bool)
  | cpuRead (a : Nat)
deriving DecidableEq

/-- One step of the single-queue event machine: each event runs the handler
the source binds to it. -/
def step (st : WpcState) (e : Ev) : WpcState :=
  match e with
  | Ev.irqTimerFire => device_timer_irq st
  | Ev.vblankTimerFire => device_timer_vblank st
  | Ev.irqClearWrite _ => wpc_irq_w st
  | Ev.firqClearWrite _ => wpc_firq_w st
  | Ev.ramWrite o d => ram_w st o d
  | Ev.rombankWrite d => wpc_rombank_w st d
  | Ev.rawAlphaWrite i v => wpc_raw_alpha_w st i v
  | Ev.sndReply s => wpcsnd_reply_w st s
  | Ev.cpuRead _ => st

/-- Which of the two optional sound devices the machine configuration
instantiates: wpc_an_dd creates m_bg (the S11 background board, variant B),
wpc_an creates m_wpcsnd (the WPC sound board, variant A). -/
structure SoundConfig where
  hasBg : Bool
  hasWpcsnd : Bool

/-- The wpc_an machine configuration (WPCSND present, no S11 board). -/
def variantA : SoundConfig := { hasBg := false, hasWpcsnd := true }

/-- The wpc_an_dd machine configuration (S11 board present, no WPCSND). -/
def variantB : SoundConfig := { hasBg := true, hasWpcsnd := false }

/-- The externally visible actions a sound-port handler performs on the sound
devices, in program order: m_bg->data_w / m_bg->ctrl_w(line) for the S11
board, m_wpcsnd->ctrl_w / m_wpcsnd->data_w for the WPC sound board. -/
inductive SndAct where
  | bgData (b : Nat)
  | bgCtrl (v : Nat)
  | sndCtrl (b : Nat)
  | sndData (b : Nat)
deriving DecidableEq

/-- void wpc_sound_ctrl_w(uint8_t data) : with m_bg, data_w(data) then
ctrl_w(1); otherwise m_wpcsnd->ctrl_w(data). -/
def wpc_sound_ctrl_w (cfg : SoundConfig) (data : Nat) : List SndAct :=
  if cfg.hasBg then [SndAct.bgData data, SndAct.bgCtrl 1]
  else [SndAct.sndCtrl data]

/-- void wpc_sound_data_w(uint8_t data) : with m_bg, data_w(data) then
ctrl_w(0); otherwise m_wpcsnd->data_w(data). -/
def wpc_sound_data_w (cfg : SoundConfig) (data : Nat) : List SndAct :=
  if cfg.hasBg then [SndAct.bgData data, SndAct.bgCtrl 0]
  else [SndAct.sndData data]

/-- void wpc_sound_s11_w(uint8_t data) : with m_bg, data_w(data) then
ctrl_w(0) then ctrl_w(1); otherwise nothing. -/
def wpc_sound_s11_w (cfg : SoundConfig) (data : Nat) : List SndAct :=
  if cfg.hasBg then [SndAct.bgData data, SndAct.bgCtrl 0, SndAct.bgCtrl 1]
  else []

/-- uint8_t wpc_sound_ctrl_r() : if m_wpcsnd exists return its ctrl_r()
(an external device value, passed in as wpcsndCtrl); else return 0. -/
def wpc_sound_ctrl_r (cfg : SoundConfig) (wpcsndCtrl : Nat) : Nat :=
  if cfg.hasWpcsnd then wpcsndCtrl else 0

/-- uint8_t wpc_sound_data_r() : if m_wpcsnd exists return its data_r()
(an external device value, passed in as wpcsndData); else return 0. -/
def wpc_sound_data_r (cfg : SoundConfig) (wpcsndData : Nat) : Nat :=
  if cfg.hasWpcsnd then wpcsndData else 0

/-- The memory components the address map can route an access to. -/
inductive MapTarget where
  | protectedRam
  | scratchRam
  | wpcRegs
  | bankWindow
  | fixedRom
deriving DecidableEq

/-- void wpc_an_map(address_map &map) : the five map entries in source order,
each as (first address, last address, owning component). -/
def wpc_an_map : List (Nat × Nat × MapTarget) :=
  [(0x0000, 0x2fff, MapTarget.protectedRam),
   (0x3000, 0x3faf, MapTarget.scratchRam),
   (0x3fb0, 0x3fff, MapTarget.wpcRegs),
   (0x4000, 0x7fff, MapTarget.bankWindow),
   (0x8000, 0xffff, MapTarget.fixedRom)]

/-- Membership of an address in one map entry's range. -/
def inEntry (a : Nat) (e : Nat × Nat × MapTarget) : Bool :=
  decide (e.1 ≤ a) && decide (a ≤ e.2.1)

/-- Modelled from the spec: the four ranges the claim lists — protected RAM,
register window, bank window, fixed upper ROM — with the bounds the source
gives those four components.  Used to compare the claim's enumeration against
the code's map. -/
def claimedRanges : List (Nat × Nat × MapTarget) :=
  [(0x0000, 0x2fff, MapTarget.protectedRam),
   (0x3fb0, 0x3fff, MapTarget.wpcRegs),
   (0x4000, 0x7fff, MapTarget.bankWindow),
   (0x8000, 0xffff, MapTarget.fixedRom)]

/-- Display digit i takes its raw pattern from this alphanumeric cell:
the loop writes digits[x] from cell x and digits[x+16] from cell 20+x. -/
def srcCell (i : Nat) : Nat :=
  if i < 16 then i else 20 + (i - 16)

/-- A concrete machine state for witnesses: protection enabled with the
scenario mask 0x0800, a 32-page bank mask. -/
def testState : WpcState :=
  { ram := fun _ => 0
    bankEntry := 0
    bankmask := 0x1F
    vblankCount := 0
    irqCount := 0
    irqLine := false
    firqLine := false
    memprotectActive := true
    memprotectMask := 0x0800
    alphanumeric := fun j => j + 1
    digits := fun _ => 0 }

/-- Unrolling one iteration of the vblank update loop. -/
lemma vblankLoopAux_succ (alpha d : Nat → Nat) (m : Nat) :
    vblankLoopAux alpha d (m + 1) =
      updateDigit (updateDigit (vblankLoopAux alpha d m) m (bitswap16 (alpha m)))
        (m + 16) (bitswap16 (alpha (20 + m))) := by
  unfold vblankLoopAux
  rw [List.range_succ, List.foldl_append]
  simp

set_option maxHeartbeats 1000000 in
/-- Closed form of the vblank update loop: after n ≤ 16 iterations, digit j
holds the transformed cell j for j < n, the transformed cell 20 + (j - 16) for
16 ≤ j < 16 + n, and its old value otherwise. -/
lemma vblankLoopAux_apply (alpha d : Nat → Nat) (n : Nat) (hn : n ≤ 16) (j : Nat) :
    vblankLoopAux alpha d n j =
      if j < n then bitswap16 (alpha j)
      else if 16 ≤ j ∧ j < 16 + n then bitswap16 (alpha (20 + (j - 16)))
      else d j := by
  induction n with
  | zero =>
    simp only [vblankLoopAux, List.range_zero, List.foldl_nil]
    rw [if_neg (by omega), if_neg (by omega)]
  | succ m ih =>
    have hm : m ≤ 16 := Nat.le_of_succ_le hn
    rw [vblankLoopAux_succ]
    simp only [updateDigit]
    by_cases h1 : j = m + 16
    · rw [if_pos h1, if_neg (show ¬ j < m + 1 by omega),
        if_pos (show 16 ≤ j ∧ j < 16 + (m + 1) by omega)]
      have h : j - 16 = m := by omega
      rw [h]
    · rw [if_neg h1]
      by_cases h2 : j = m
      · rw [if_pos h2, if_pos (show j < m + 1 by omega), h2]
      · rw [if_neg h2, ih hm]
        by_cases h3 : j < m
        · rw [if_pos h3, if_pos (show j < m + 1 by omega)]
        · rw [if_neg h3, if_neg (show ¬ j < m + 1 by omega)]
          by_cases h4 : 16 ≤ j ∧ j < 16 + m
          · rw [if_pos h4, if_pos (show 16 ≤ j ∧ j < 16 + (m + 1) by omega)]
          · rw [if_neg h4, if_neg (show ¬ (16 ≤ j ∧ j < 16 + (m + 1)) by omega)]

/-- Every event other than the tick-timer fire leaves a clear IRQ line clear. -/
lemma step_irqLine_clear (st : WpcState) (e : Ev) (he : e ≠ Ev.irqTimerFire)
    (h : st.irqLine = false) : (step st e).irqLine = false := by
  cases e with
  | irqTimerFire => exact absurd rfl he
  | vblankTimerFire => simpa [step, device_timer_vblank] using h
  | irqClearWrite v => simp [step, wpc_irq_w]
  | firqClearWrite v => simpa [step, wpc_firq_w] using h
  | ramWrite o d =>
    simp only [step, ram_w]
    split
    · simpa using h
    · exact h
  | rombankWrite d => simpa [step, wpc_rombank_w] using h
  | rawAlphaWrite i v => simpa [step, wpc_raw_alpha_w] using h
  | sndReply s =>
    simp only [step, wpcsnd_reply_w]
    split
    · simpa using h
    · exact h
  | cpuRead a => simpa [step] using h

/-- A sequence of non-fire events keeps a clear IRQ line clear. -/
lemma foldl_step_irqLine_clear (evs : List Ev) (st : WpcState)
    (h : st.irqLine = false) (hev : ∀ e ∈ evs, e ≠ Ev.irqTimerFire) :
    (evs.foldl step st).irqLine = false := by
  induction evs generalizing st with
  | nil => simpa using h
  | cons e rest ih =>
    simp only [List.foldl_cons]
    exact ih (step st e)
      (step_irqLine_clear st e (hev e (List.mem_cons_self e rest)) h)
      (fun e2 h2 => hev e2 (List.mem_cons_of_mem e h2))

/-- A raw-alphanumeric-store write never changes the digits outputs. -/
lemma foldl_step_digits_of_rawWrites (evs : List Ev) (st : WpcState)
    (hev : ∀ e ∈ evs, ∃ i v, e = Ev.rawAlphaWrite i v) :
    (evs.foldl step st).digits = st.digits := by
  induction evs generalizing st with
  | nil => simp
  | cons e rest ih =>
    obtain ⟨i, v, rfl⟩ := hev e (List.mem_cons_self e rest)
    simp only [List.foldl_cons]
    rw [ih (step st (Ev.rawAlphaWrite i v))
      (fun e2 h2 => hev e2 (List.mem_cons_of_mem _ h2))]
    simp [step, wpc_raw_alpha_w]

/-- A blocked write (protection active and the mask comparator matching)
leaves the state unchanged. -/
lemma ram_w_blocked (st : WpcState) (o d : Nat) (ha : st.memprotectActive = true)
    (hm : (o &&& st.memprotectMask) = st.memprotectMask) : ram_w st o d = st := by
  rw [ram_w, if_neg]
  simp [ha, hm]

/-- An accepted write stores the byte at the written offset. -/
lemma ram_w_stores (st : WpcState) (o d : Nat)
    (h : st.memprotectActive = false ∨ (o &&& st.memprotectMask) ≠ st.memprotectMask) :
    ram_w st o d = { st with ram := fun o2 => if o2 = o then d else st.ram o2 } := by
  rw [ram_w, if_pos]
  rcases h with h | h
  · simp [h]
  · simp [h]

/-- C1: a write to an offset o of the 0x3000-byte protected RAM is rejected
iff protection is enabled and (o &&& protection_mask) = protection_mask; a
rejected write leaves the state (hence the stored byte) unchanged, and in
every other case the write stores the byte, so a subsequent read of o returns
it and all other offsets are untouched. -/
theorem C1_protected_ram_write (st : WpcState) (o d : Nat) (_ho : o < 0x3000) :
    ((st.memprotectActive = true ∧ (o &&& st.memprotectMask) = st.memprotectMask) →
      ram_w st o d = st) ∧
    (¬ (st.memprotectActive = true ∧ (o &&& st.memprotectMask) = st.memprotectMask) →
      ram_r (ram_w st o d) o = d ∧
      ∀ o2, o2 ≠ o → ram_r (ram_w st o d) o2 = ram_r st o2) := by
  constructor
  · rintro ⟨ha, hm⟩
    exact ram_w_blocked st o d ha hm
  · intro h
    have h2 : st.memprotectActive = false ∨ (o &&& st.memprotectMask) ≠ st.memprotectMask := by
      cases hb : st.memprotectActive
      · exact Or.inl rfl
      · exact Or.inr (fun hc => h ⟨hb, hc⟩)
    rw [ram_w_stores st o d h2]
    constructor
    · simp [ram_r]
    · intro o2 ho2
      simp [ram_r, ho2]

/-- C1 witness: the spec scenario — protection on, mask 0x0800 — at offset
0x0800 (blocked) packaged through the theorem at a concrete input. -/
theorem C1_protected_ram_write_witness :
    (((testState.memprotectActive = true ∧
        ((0x0800 : Nat) &&& testState.memprotectMask) = testState.memprotectMask) →
      ram_w testState 0x0800 5 = testState) ∧
    (¬ (testState.memprotectActive = true ∧
        ((0x0800 : Nat) &&& testState.memprotectMask) = testState.memprotectMask) →
      ram_r (ram_w testState 0x0800 5) 0x0800 = 5 ∧
      ∀ o2, o2 ≠ 0x0800 → ram_r (ram_w testState 0x0800 5) o2 = ram_r testState o2)) :=
  C1_protected_ram_write testState 0x0800 5 (by decide)

/-- C2: a bank-select write of page_index makes the effective page
page_index &&& bank_mask, so a read through the window returns the byte of
that page of the ROM image; with a mask of the form 2^k - 1 (the
power-of-two-pages configuration) selecting bank_mask + 1 is the same as
selecting 0, and with bank_mask = 0x1F, select 40 then read offset 0 returns
the same byte as select 8 then read offset 0. -/
theorem C2_rombank_select (st : WpcState) (rom : Nat → Nat) (d off k : Nat)
    (hm : st.bankmask = 2 ^ k - 1) :
    (wpc_rombank_w st d).bankEntry = d &&& st.bankmask ∧
    cpubank_read rom (wpc_rombank_w st d) off
      = rom (0x10000 + (d &&& st.bankmask) * 0x4000 + off) ∧
    wpc_rombank_w st (st.bankmask + 1) = wpc_rombank_w st 0 ∧
    (st.bankmask = 0x1F →
      cpubank_read rom (wpc_rombank_w st 40) 0 = cpubank_read rom (wpc_rombank_w st 8) 0) := by
  refine ⟨rfl, rfl, ?_, ?_⟩
  · unfold wpc_rombank_w
    have hand : (st.bankmask + 1) &&& st.bankmask = 0 &&& st.bankmask := by
      rw [hm, Nat.sub_add_cancel (Nat.one_le_two_pow), Nat.and_pow_two_sub_one_eq_mod,
        Nat.and_pow_two_sub_one_eq_mod, Nat.mod_self, Nat.zero_mod]
    rw [hand]
  · intro h31
    unfold cpubank_read wpc_rombank_w
    rw [h31]
    rfl

/-- C2 witness: the 32-page scenario (bank_mask = 0x1F = 2^5 - 1) at
page_index 40, offset 0. -/
theorem C2_rombank_select_witness :
    (wpc_rombank_w testState 40).bankEntry = 40 &&& testState.bankmask ∧
    cpubank_read (fun a => a % 251) (wpc_rombank_w testState 40) 0
      = (fun a => a % 251) (0x10000 + (40 &&& testState.bankmask) * 0x4000 + 0) ∧
    wpc_rombank_w testState (testState.bankmask + 1) = wpc_rombank_w testState 0 ∧
    (testState.bankmask = 0x1F →
      cpubank_read (fun a => a % 251) (wpc_rombank_w testState 40) 0
        = cpubank_read (fun a => a % 251) (wpc_rombank_w testState 8) 0) :=
  C2_rombank_select testState (fun a => a % 251) 40 0 5 (by decide)

/-- C3: the tick interrupt line is a two-state machine — a tick-timer fire
asserts the line, one write to the clear port (any value) clears it, and
while clear it stays clear across any sequence of events that contains no
tick-timer fire. -/
theorem C3_tick_line_state_machine (st : WpcState) (v : Nat) (evs : List Ev) :
    (step st Ev.irqTimerFire).irqLine = true ∧
    (step st (Ev.irqClearWrite v)).irqLine = false ∧
    (st.irqLine = false → (∀ e ∈ evs, e ≠ Ev.irqTimerFire) →
      (evs.foldl step st).irqLine = false) := by
  refine ⟨rfl, rfl, ?_⟩
  intro h hev
  exact foldl_step_irqLine_clear evs st h hev

/-- C3 witness: fire, clear with value 0xAB, then a run of non-fire events
keeps the line clear, at a concrete state. -/
theorem C3_tick_line_state_machine_witness :
    (step testState Ev.irqTimerFire).irqLine = true ∧
    (step testState (Ev.irqClearWrite 0xAB)).irqLine = false ∧
    (testState.irqLine = false →
      (∀ e ∈ [Ev.irqClearWrite 1, Ev.cpuRead 7, Ev.ramWrite 2 3, Ev.rombankWrite 4],
        e ≠ Ev.irqTimerFire) →
      (([Ev.irqClearWrite 1, Ev.cpuRead 7, Ev.ramWrite 2 3,
          Ev.rombankWrite 4].foldl step testState)).irqLine = false) :=
  C3_tick_line_state_machine testState 0xAB
    [Ev.irqClearWrite 1, Ev.cpuRead 7, Ev.ramWrite 2 3, Ev.rombankWrite 4]

/-- C4: on a frame-timer fire each display cell receives the bit-permuted raw
pattern of its source cell, the raw alphanumeric store is cleared, the frame
counter advances by one (uint16), and raw-store writes after the fire do not
change the display buffer until the next fire. -/
theorem C4_frame_fire (st : WpcState) (evs : List Ev) :
    (∀ i, i < 16 →
      (device_timer_vblank st).digits i = bitswap16 (st.alphanumeric i) ∧
      (device_timer_vblank st).digits (i + 16) = bitswap16 (st.alphanumeric (20 + i))) ∧
    (∀ j, (device_timer_vblank st).alphanumeric j = 0) ∧
    (device_timer_vblank st).vblankCount = (st.vblankCount + 1) % 65536 ∧
    ((∀ e ∈ evs, ∃ i v, e = Ev.rawAlphaWrite i v) →
      (evs.foldl step (device_timer_vblank st)).digits = (device_timer_vblank st).digits) := by
  refine ⟨?_, fun j => rfl, rfl, ?_⟩
  · intro i hi
    constructor
    · show vblankLoopAux st.alphanumeric st.digits 16 i = bitswap16 (st.alphanumeric i)
      rw [vblankLoopAux_apply st.alphanumeric st.digits 16 (by omega) i, if_pos hi]
    · show vblankLoopAux st.alphanumeric st.digits 16 (i + 16)
        = bitswap16 (st.alphanumeric (20 + i))
      rw [vblankLoopAux_apply st.alphanumeric st.digits 16 (by omega) (i + 16),
        if_neg (show ¬ i + 16 < 16 by omega),
        if_pos (show 16 ≤ i + 16 ∧ i + 16 < 16 + 16 by omega)]
      have h : i + 16 - 16 = i := by omega
      rw [h]
  · intro hev
    exact foldl_step_digits_of_rawWrites evs (device_timer_vblank st) hev

/-- C4 witness: the theorem at a concrete state and a run of two raw-store
writes after the fire. -/
theorem C4_frame_fire_witness :
    (∀ i, i < 16 →
      (device_timer_vblank testState).digits i = bitswap16 (testState.alphanumeric i) ∧
      (device_timer_vblank testState).digits (i + 16)
        = bitswap16 (testState.alphanumeric (20 + i))) ∧
    (∀ j, (device_timer_vblank testState).alphanumeric j = 0) ∧
    (device_timer_vblank testState).vblankCount = (testState.vblankCount + 1) % 65536 ∧
    ((∀ e ∈ [Ev.rawAlphaWrite 3 0x1234, Ev.rawAlphaWrite 21 0x00FF],
        ∃ i v, e = Ev.rawAlphaWrite i v) →
      (([Ev.rawAlphaWrite 3 0x1234, Ev.rawAlphaWrite 21 0x00FF].foldl step
          (device_timer_vblank testState))).digits = (device_timer_vblank testState).digits) :=
  C4_frame_fire testState [Ev.rawAlphaWrite 3 0x1234, Ev.rawAlphaWrite 21 0x00FF]

/-- No runtime event changes the configured bank mask. -/
lemma step_bankmask (st : WpcState) (e : Ev) : (step st e).bankmask = st.bankmask := by
  cases e <;>
    first
      | rfl
      | (simp only [step, ram_w, wpcsnd_reply_w]; split <;> rfl)

/-- C5 counterexample: under the natural reading of the claim — data_write is
the wpc_sound_data_w port bound to the sound-data address — the S11 (variant
B) handler pushes the byte and drives the strobe low without the trailing
high edge, so it does not toggle low-then-high. -/
theorem C5_counterexample :
    wpc_sound_data_w variantB 5 ≠
      [SndAct.bgData 5, SndAct.bgCtrl 0, SndAct.bgCtrl 1] := by
  decide

/-- C5 amended: in variant B the data-port write pushes the byte and drives
the strobe low (leading edge only); it is the s11 write port that pushes the
byte and toggles the strobe low-then-high; the ctrl-port write pushes the
byte and pulses only the trailing (high) edge. -/
theorem C5_soundlink_variantB (cfg : SoundConfig) (h : cfg.hasBg = true) (d : Nat) :
    wpc_sound_data_w cfg d = [SndAct.bgData d, SndAct.bgCtrl 0] ∧
    wpc_sound_s11_w cfg d = [SndAct.bgData d, SndAct.bgCtrl 0, SndAct.bgCtrl 1] ∧
    wpc_sound_ctrl_w cfg d = [SndAct.bgData d, SndAct.bgCtrl 1] := by
  simp [wpc_sound_data_w, wpc_sound_s11_w, wpc_sound_ctrl_w, h]

/-- C5 amended witness: the Dr. Dude configuration with byte 5. -/
theorem C5_soundlink_variantB_witness :
    wpc_sound_data_w variantB 5 = [SndAct.bgData 5, SndAct.bgCtrl 0] ∧
    wpc_sound_s11_w variantB 5 = [SndAct.bgData 5, SndAct.bgCtrl 0, SndAct.bgCtrl 1] ∧
    wpc_sound_ctrl_w variantB 5 = [SndAct.bgData 5, SndAct.bgCtrl 1] :=
  C5_soundlink_variantB variantB rfl 5

/-- C6: with no WPC sound device configured (variant B), both sound read
ports return zero whatever the external device values are. -/
theorem C6_variantB_reads_zero (cfg : SoundConfig) (h : cfg.hasWpcsnd = false)
    (v w : Nat) :
    wpc_sound_ctrl_r cfg v = 0 ∧ wpc_sound_data_r cfg w = 0 := by
  simp [wpc_sound_ctrl_r, wpc_sound_data_r, h]

/-- C6 witness: the Dr. Dude configuration with arbitrary device bytes. -/
theorem C6_variantB_reads_zero_witness :
    wpc_sound_ctrl_r variantB 0x7E = 0 ∧ wpc_sound_data_r variantB 0x99 = 0 :=
  C6_variantB_reads_zero variantB rfl 0x7E 0x99

/-- C7 counterexample: machine_reset does not zero the protected RAM — from
a pre-reset state whose every RAM byte is 7, the byte at offset 0 is still 7
after reset. -/
theorem C7_counterexample :
    (machine_reset { testState with ram := fun _ => 7 }).ram 0 = 7 ∧ (7 : Nat) ≠ 0 :=
  ⟨rfl, by decide⟩

/-- C7 amended: machine reset forces the selected bank page to 0 and zeroes
the two counters but leaves the protected RAM untouched; the RAM is zeroed
once at configuration time (init), which also selects page 0. -/
theorem C7_machine_reset (st : WpcState) (bytes : Nat) :
    (machine_reset st).bankEntry = 0 ∧
    (machine_reset st).vblankCount = 0 ∧
    (machine_reset st).irqCount = 0 ∧
    (machine_reset st).ram = st.ram ∧
    (∀ o, (init_wpc_an bytes st).ram o = 0) ∧
    (init_wpc_an bytes st).bankEntry = 0 :=
  ⟨rfl, rfl, rfl, rfl, fun _ => rfl, rfl⟩

/-- C8 counterexample: the four ranges the claim lists (protected RAM,
register window, bank window, fixed upper ROM) do not cover the 16-bit
domain — address 0x3000 lies in none of them, while the code's map routes it
(to the scratch RAM range the claim omits) in exactly one way. -/
theorem C8_counterexample :
    (0x3000 : Nat) ≤ 0xFFFF ∧
    claimedRanges.all (fun e => ! inEntry 0x3000 e) = true ∧
    wpc_an_map.countP (fun e => inEntry 0x3000 e) = 1 := by
  decide

/-- C8 amended: the map's five byte ranges — protected RAM, scratch RAM,
register window, bank window, fixed upper ROM, in that order — are pairwise
disjoint and together cover the full 16-bit domain: every address the CPU can
issue lies in exactly one range. -/
theorem C8_address_map (a : Nat) (ha : a ≤ 0xFFFF) :
    wpc_an_map.countP (fun e => inEntry a e) = 1 := by
  simp only [wpc_an_map, inEntry, List.countP_cons, List.countP_nil,
    Bool.and_eq_true, decide_eq_true_eq]
  split_ifs <;> omega

/-- C8 amended witness: address 0x4321 is owned by exactly one range. -/
theorem C8_address_map_witness :
    wpc_an_map.countP (fun e => inEntry 0x4321 e) = 1 :=
  C8_address_map 0x4321 (by decide)

/-- C9: the bank mask is computed at configuration time as
image_size_pages - 1, where image_size_pages counts the 0x4000-byte pages of
the loaded image; no runtime event or reset ever recomputes or validates it,
and the formula also applies to a non-power-of-two page count (3 pages give
mask 2). -/
theorem C9_bankmask_config (bytes pages : Nat)
    (hp : pages = (bytes - 0x10000) / 0x4000)
    (h1 : 1 ≤ pages) (h2 : pages ≤ 256)
    (hlo : 0x10000 ≤ bytes) (hhi : bytes < 0x100000000) :
    compute_bankmask bytes = pages - 1 ∧
    (∀ st : WpcState, (init_wpc_an bytes st).bankmask = pages - 1) ∧
    (∀ (st : WpcState) (e : Ev), (step st e).bankmask = st.bankmask) ∧
    (∀ st : WpcState, (machine_reset st).bankmask = st.bankmask) ∧
    compute_bankmask (0x10000 + 3 * 0x4000) = 2 := by
  have hmain : compute_bankmask bytes = pages - 1 := by
    unfold compute_bankmask
    rw [Nat.shiftRight_eq_div_pow]
    have h14 : (2 : Nat) ^ 14 = 16384 := by norm_num
    rw [h14]
    omega
  refine ⟨hmain, fun st => hmain, fun st e => step_bankmask st e, fun st => rfl, rfl⟩

/-- C9 witness: the Dr. Dude image (0x30000-byte maincpu region, 8 pages)
gives mask 7. -/
theorem C9_bankmask_config_witness :
    compute_bankmask 0x30000 = 8 - 1 ∧
    (∀ st : WpcState, (init_wpc_an 0x30000 st).bankmask = 8 - 1) ∧
    (∀ (st : WpcState) (e : Ev), (step st e).bankmask = st.bankmask) ∧
    (∀ st : WpcState, (machine_reset st).bankmask = st.bankmask) ∧
    compute_bankmask (0x10000 + 3 * 0x4000) = 2 :=
  C9_bankmask_config 0x30000 8 (by decide) (by decide) (by decide) (by decide) (by decide)

/-- C10: on a frame fire, digit i is filled from raw cell srcCell i — cell i
for digits 0 through 15 and cell i + 4 (that is 20 + (i - 16)) for digits 16
through 31 — and no digit's source cell lies in 16 through 19. -/
theorem C10_digit_sources (st : WpcState) (i : Nat) (hi : i < 32) :
    (device_timer_vblank st).digits i = bitswap16 (st.alphanumeric (srcCell i)) ∧
    ¬ (16 ≤ srcCell i ∧ srcCell i < 20) := by
  constructor
  · show vblankLoopAux st.alphanumeric st.digits 16 i = _
    rw [vblankLoopAux_apply st.alphanumeric st.digits 16 (by omega) i]
    simp only [srcCell]
    by_cases h : i < 16
    · rw [if_pos h, if_pos h]
    · rw [if_neg h, if_pos (show 16 ≤ i ∧ i < 16 + 16 by omega), if_neg h]
  · simp only [srcCell]
    by_cases h : i < 16
    · rw [if_pos h]
      omega
    · rw [if_neg h]
      omega

/-- C10 witness: digit 25 takes its pattern from raw cell 29, not from cells
16 through 19. -/
theorem C10_digit_sources_witness :
    (device_timer_vblank testState).digits 25
      = bitswap16 (testState.alphanumeric (srcCell 25)) ∧
    ¬ (16 ≤ srcCell 25 ∧ srcCell 25 < 20) :=
  C10_digit_sources testState 25 (by decide)

end WpcAn
